import Mathlib

/-!
Verification development for the Daily-Report-Automation repository.

The definitions below are a shallow embedding, translated from the Python
source files, of the parts of the repository that the stated properties
concern: the numeric normalizers of the processors, the derived
total_cashes rules of the three lotto extraction paths, the cell-write
conditionals, the vision-error control flow, the retry loop of the vision
wrapper, the two spreadsheet save protocols, template/sheet selection, the
handwritten reconciliation step, and the fixed-width value rows of the
handwritten lotto-end strategy.

Numbers are modelled as rationals: the Python code works with decimal
currency tokens and the properties under consideration are about exact
decimal values and control flow, not binary rounding.
-/

namespace DailyReport

/-- Zero width space character, removed by the normalizers
(the Python sources remove the literal u200b). -/
def zwsp : Char := '​'

/-- Remove every occurrence of one character from a character list.
Models Python str.replace of a one-character pattern with the empty
string, as used for the dollar sign, comma, space and zero width space. -/
def removeChar (c : Char) (l : List Char) : List Char :=
  l.filter (fun a => a != c)

/-- Whitespace test used by the model of str.strip and float parsing. -/
def isPyWs (c : Char) : Bool :=
  c == ' ' || c == '\t' || c == '\n' || c == '\r' || c == '\x0b' || c == '\x0c'

/-- Model of Python str.strip: drop whitespace from both ends. -/
def stripWs (l : List Char) : List Char :=
  ((l.dropWhile isPyWs).reverse.dropWhile isPyWs).reverse

/-- Model of Python str.rstrip with a one-character argument. -/
def dropTrailing (c : Char) (l : List Char) : List Char :=
  (l.reverse.dropWhile (fun a => a == c)).reverse

/-- Model of Python str.lstrip with a one-character argument. -/
def dropLeading (c : Char) (l : List Char) : List Char :=
  l.dropWhile (fun a => a == c)

/-- Numeric value of a digit list, most significant digit first. -/
def digitsVal (l : List Char) : Nat :=
  l.foldl (fun a c => a * 10 + (c.toNat - 48)) 0

/-- Unsigned part of the model of Python float parsing: an optional
integer part, an optional dot, an optional fraction part, with at least
one digit overall. The model is restricted to plain decimal literals; the
exponent, underscore and infinity forms accepted by Python are never
produced by the currency token patterns this repository feeds to float. -/
def pyFloatMag (l : List Char) : Option ℚ :=
  let intPart := l.takeWhile (fun c => c != '.')
  match l.drop intPart.length with
  | [] =>
    if !intPart.isEmpty && intPart.all Char.isDigit then
      some (digitsVal intPart : ℚ)
    else none
  | _ :: frac =>
    if !(intPart.isEmpty && frac.isEmpty) && intPart.all Char.isDigit
        && frac.all Char.isDigit then
      some ((digitsVal intPart : ℚ) + (digitsVal frac : ℚ) / (10 ^ frac.length))
    else none

/-- Model of Python float applied to a string: surrounding whitespace is
tolerated, then an optional sign followed by a decimal literal.
Returns none where Python float raises ValueError. -/
def pyFloat (l0 : List Char) : Option ℚ :=
  let l := stripWs l0
  match l with
  | '-' :: rest => (pyFloatMag rest).map (fun q => -q)
  | '+' :: rest => pyFloatMag rest
  | _ => pyFloatMag l

/-- Greedy match of digits, optionally followed by a dot and more digits,
at the head of the list: the unsigned part of the last-ditch regex of the
handwritten normalizer. -/
def matchUnsigned (l : List Char) : Option (List Char) :=
  let ds := l.takeWhile Char.isDigit
  if ds.isEmpty then none
  else
    match l.drop ds.length with
    | '.' :: r2 =>
      let fs := r2.takeWhile Char.isDigit
      if fs.isEmpty then some ds else some (ds ++ '.' :: fs)
    | _ => some ds

/-- Match of an optionally negated decimal number at the head of the list. -/
def matchNumAt (l : List Char) : Option (List Char) :=
  match l with
  | '-' :: rest => (matchUnsigned rest).map (fun m => '-' :: m)
  | _ => matchUnsigned l

/-- Leftmost match of the signed-decimal regex used as the last-ditch
recovery of the handwritten normalizer. -/
def findNum : List Char → Option (List Char)
  | [] => none
  | c :: rest =>
    match matchNumAt (c :: rest) with
    | some m => some m
    | none => findNum rest

/-- Model of HandwrittenProcessor to_float (processors/handwritten_processor.py,
lines 33 to 57; HandwrittenLottoEndProcessor to_number is the same code):
remove dollar signs, commas and zero width spaces, strip, strip trailing
minus signs, turn a fully parenthesized value negative, strip leading plus
signs, parse as float, and on failure recover a contained signed decimal
substring; otherwise absent. -/
def hw_to_float (s : String) : Option ℚ :=
  let l := stripWs (removeChar zwsp (removeChar ',' (removeChar '$' s.data)))
  let l := dropTrailing '-' l
  let l :=
    if l.head? == some '(' && l.getLast? == some ')' then
      '-' :: (l.drop 1).dropLast
    else l
  let l := stripWs (dropLeading '+' l)
  match pyFloat l with
  | some q => some q
  | none =>
    match findNum l with
    | some m => pyFloat m
    | none => none

/-- Model of BatchProcessor to_float (processors/batch_processor.py, lines
51 to 62): empty input is absent; remove dollar signs, spaces and zero
width spaces, strip trailing minus signs, remove commas, parse as float,
otherwise absent. There is no parenthesis rule and no recovery regex. -/
def batch_to_float (s : String) : Option ℚ :=
  if s.data.isEmpty then none
  else
    let l := removeChar zwsp (removeChar ' ' (removeChar '$' s.data))
    let l := dropTrailing '-' l
    let l := removeChar ',' l
    pyFloat l

/-- A JSON scalar as it reaches the lotto field records: a number (Python
int or float) or a string. A JSON null and a missing key both surface as
Python None through dict.get, modelled as none at the Option layer. -/
inductive JVal where
  | num (q : ℚ)
  | str (s : String)
deriving DecidableEq

/-- The parsed lotto field record shared by the three lotto extraction
paths: each declared key holds a JSON scalar or is absent. -/
structure LottoRec where
  drw_gm_net_sales : Option JVal
  drw_gm_cashes : Option JVal
  scratch_cashes : Option JVal
  total_cashes : Option JVal
deriving DecidableEq

/-- Model of Python float applied to a JSON scalar: a number converts to
itself, a string is parsed; none models the ValueError path. -/
def float_of_jval : JVal → Option ℚ
  | .num q => some q
  | .str s => pyFloat s.data

/-- Value written to cell Z9 by LottoProcessor.run
(processors/lotto_processor.py, lines 66 to 74): a directly supplied
total_cashes is written as is; otherwise, when both cash parts are
present, their float sum is written; a conversion failure writes nothing. -/
def lotto_z9_write (p : LottoRec) : Option JVal :=
  match p.total_cashes with
  | some t => some t
  | none =>
    match p.drw_gm_cashes, p.scratch_cashes with
    | some d, some s =>
      match float_of_jval d, float_of_jval s with
      | some x, some y => some (.num (x + y))
      | _, _ => none
    | _, _ => none

/-- The membership test of gemini_vision_handler.py line 98: total_cashes
in (None, empty string, 0). -/
def gemini_falsy_total : Option JVal → Bool
  | none => true
  | some (.str s) => s == ""
  | some (.num q) => q == 0

/-- Model of the total_cashes normalization of
GeminiVisionHandler.extract_lotto_data (src/gemini_vision_handler.py,
lines 95 to 105): when both cash parts are present (is-not-None test) and
total_cashes is None, the empty string or 0, total_cashes is replaced by
the float sum of the parts; a conversion failure leaves the record as is. -/
def gemini_total_norm (p : LottoRec) : LottoRec :=
  if p.drw_gm_cashes.isSome && p.scratch_cashes.isSome then
    if gemini_falsy_total p.total_cashes then
      match p.drw_gm_cashes, p.scratch_cashes with
      | some d, some s =>
        match float_of_jval d, float_of_jval s with
        | some x, some y => { p with total_cashes := some (.num (x + y)) }
        | _, _ => p
      | _, _ => p
    else p
  else p

/-- Python truthiness of a JSON scalar. -/
def truthyJ : JVal → Bool
  | .num q => q != 0
  | .str s => s != ""

/-- Python truthiness of a dict.get result. -/
def truthyOJ : Option JVal → Bool
  | none => false
  | some v => truthyJ v

/-- Model of the total_cashes completion of
CompleteLottoProcessor.extract_lotto_data (src/complete_lotto_processor.py,
lines 59 to 62): truthiness tests on both parts and on total_cashes, raw
plus on the JSON scalars. A plus on a number and a string raises TypeError
which escapes to the outer handler and turns the whole extraction into
None, modelled by the none result. -/
def complete_total_norm (p : LottoRec) : Option LottoRec :=
  if truthyOJ p.drw_gm_cashes && truthyOJ p.scratch_cashes then
    if truthyOJ p.total_cashes then some p
    else
      match p.drw_gm_cashes, p.scratch_cashes with
      | some (.num x), some (.num y) => some { p with total_cashes := some (.num (x + y)) }
      | some (.str a), some (.str b) => some { p with total_cashes := some (.str (a ++ b)) }
      | _, _ => none
  else some p

/-- Value written to cell T30 by
CompleteLottoProcessor.process_lotto_report_to_excel
(src/complete_lotto_processor.py, lines 106 to 111): the net sales value
is written only when truthy, so a present 0 is skipped. -/
def complete_write_T30 (d : LottoRec) : Option JVal :=
  if truthyOJ d.drw_gm_net_sales then d.drw_gm_net_sales else none

/-- Value written to cell Z9 by the same function (lines 113 to 119):
total_cashes is written only when truthy. -/
def complete_write_Z9 (d : LottoRec) : Option JVal :=
  if truthyOJ d.total_cashes then d.total_cashes else none

/-- Model of the local to_num of BatchProcessor.run
(processors/batch_processor.py, lines 121 to 131): None becomes 0, a
number converts, a string is cleaned of dollar signs and commas and
stripped, the empty result is 0, a parse failure is 0. -/
def to_num : Option JVal → ℚ
  | none => 0
  | some (.num q) => q
  | some (.str s) =>
    let l := stripWs (removeChar ',' (removeChar '$' s.data))
    if l.isEmpty then 0 else (pyFloat l).getD 0

/-- New value of cell Z10 computed by BatchProcessor.run (lines 133 to
137): the previous numeric value of the cell plus the extracted EBT value,
not the extracted value itself. -/
def batch_z10_new (cur : Option JVal) (ebt : ℚ) : ℚ :=
  to_num cur + ebt

/-- Outcome of the image-then-vision stage of LottoProcessor.run
(processors/lotto_processor.py, lines 41 to 50): a missing image and a
vision error are both terminal failure results; LottoProcessor has no
text-recognition fallback at all. -/
inductive StageOut (α : Type) where
  | imageMissing
  | abortedVisionError (e : String)
  | proceed (a : α)

/-- Control flow of LottoProcessor.run at the vision call: on a vision
error the method returns a failed ProcessorResult at line 48 and nothing
after it runs. -/
def lotto_vision_stage (imageExists : Bool) (resp : Except String String) : StageOut String :=
  if imageExists then
    match resp with
    | .error e => .abortedVisionError e
    | .ok t => .proceed t
  else .imageMissing

/-- Result of Day1ReportProcessor extract_with_gemini as seen by run: a
dict that carries an error key, or a clean parsed record. -/
inductive GemOut (α : Type) where
  | withErrorKey (e : String)
  | clean (a : α)

/-- Model of Day1ReportProcessor extract_with_gemini
(processors/day1_report_processor.py, lines 36 to 43): a vision error
becomes an error record; otherwise the reply text is parsed (the parse is
abstracted as a parameter since only the control flow is at issue). -/
def day1_extract_gemini {α : Type} (resp : Except String String) (parse : String → GemOut α) : GemOut α :=
  match resp with
  | .error e => .withErrorKey e
  | .ok t => parse t

/-- Model of the fallback selection of Day1ReportProcessor.run (lines 84
to 87): an error record from the vision path is replaced by the
text-recognition result; the Boolean reports whether the fallback ran. -/
def day1_select {α : Type} (gem : GemOut α) (ocr : α) : α × Bool :=
  match gem with
  | .withErrorKey _ => (ocr, true)
  | .clean a => (a, false)

/-- One vision call outcome as seen by the retry loop of
handlers/gemini_handler.py: a reply text or an exception message. -/
inductive CallRes where
  | ok (text : String)
  | err (msg : String)
deriving DecidableEq

/-- Decidable equality for the text-or-error result type. -/
instance : DecidableEq (Except String String) := fun x y =>
  match x, y with
  | .ok a, .ok b =>
    if h : a = b then isTrue (by rw [h]) else isFalse (fun hh => h (by injection hh))
  | .error a, .error b =>
    if h : a = b then isTrue (by rw [h]) else isFalse (fun hh => h (by injection hh))
  | .ok _, .error _ => isFalse (fun hh => by injection hh)
  | .error _, .ok _ => isFalse (fun hh => by injection hh)

/-- Result of generate_from_image: the returned text-or-error record,
the number of calls made, and the backoff sleeps performed. -/
structure GenRes where
  res : Except String String
  attempts : Nat
  sleeps : List Nat
deriving DecidableEq

/-- Bool test that one list of characters occurs at the head of another. -/
def headMatches : List Char → List Char → Bool
  | [], _ => true
  | _ :: _, [] => false
  | n :: ns, h :: hs => n == h && headMatches ns hs

/-- Bool substring containment on character lists. -/
def containsChars (needle : List Char) : List Char → Bool
  | [] => headMatches needle []
  | h :: hs => headMatches needle (h :: hs) || containsChars needle hs

/-- The rate-limit classifier of GeminiVisionHandler.generate_from_image
(handlers/gemini_handler.py, line 83): the lowered exception text contains
quota, rate, 429 or exceeded. -/
def isRateLimitError (m : String) : Bool :=
  let low := m.data.map Char.toLower
  containsChars "quota".data low || containsChars "rate".data low
    || containsChars "429".data low || containsChars "exceeded".data low

/-- A call outcome that is an error classified as rate limit. -/
def is_rate_case : CallRes → Bool
  | .ok _ => false
  | .err m => isRateLimitError m

/-- The retry loop of generate_from_image (handlers/gemini_handler.py,
lines 73 to 95), driven by the list of outcomes of attempts
attempt, attempt + 1, ..., max_retries; under that calling convention the
source test attempt < max_retries is exactly the nonemptiness of the rest
of the list. A success returns the text; a rate-limit error sleeps
2 ^ attempt * 2 seconds and retries while attempts remain, and otherwise
returns the max-retries error; any other error is returned at once. -/
def generate_attempt_loop (attempt : Nat) : List CallRes → GenRes
  | [] => ⟨.error "Max retries exceeded", 0, []⟩
  | .ok t :: _ => ⟨.ok t, 1, []⟩
  | .err m :: rest =>
    if isRateLimitError m then
      if rest.isEmpty then
        ⟨.error ("Max retries exceeded. Rate limit error: " ++ m), 1, []⟩
      else
        let r := generate_attempt_loop (attempt + 1) rest
        ⟨r.res, r.attempts + 1, 2 ^ attempt * 2 :: r.sleeps⟩
    else ⟨.error m, 1, []⟩

/-- Model of generate_from_image (handlers/gemini_handler.py, lines 61 to
95): an unopenable image is an immediate error record; otherwise the retry
loop runs from attempt 1 over the outcome list, whose length is the
max_retries of the handler. -/
def generate_from_image (imageOk : Bool) (outs : List CallRes) : GenRes :=
  if imageOk then generate_attempt_loop 1 outs
  else ⟨.error "Could not open image", 0, []⟩

/-- The exponential backoff schedule: n sleeps starting at attempt a are
2 ^ a * 2, 2 ^ (a + 1) * 2, and so on. -/
def exp_sleeps (attempt : Nat) : Nat → List Nat
  | 0 => []
  | n + 1 => 2 ^ attempt * 2 :: exp_sleeps (attempt + 1) n

/-- Bool test that an Except result is the error side. -/
def is_error_res : Except String String → Bool
  | .error _ => true
  | .ok _ => false

/-- Outcome of one save attempt of the file system environment. -/
inductive SaveRes where
  | ok
  | permErr
  | otherErr
deriving DecidableEq, BEq

/-- What save_report returned and which files it wrote. -/
structure SaveOut where
  success : Bool
  wroteTarget : Bool
  wroteFallback : Bool
  wroteBackup : Bool
deriving DecidableEq

/-- Model of ExcelHandler.save_report of handlers/excel_handler.py (lines
92 to 154) over an environment giving the outcome of each file operation:
no workbook returns failure at once; a backup is attempted only for the
default target with make_backup, and its failure is swallowed; then the
workbook is saved to a temporary file and moved onto the target with an
atomic replace; any failure of that pair (permission or otherwise) falls
back to saving a timestamped sibling copy, whose success is reported as
success; only a failing fallback save returns failure. -/
def save_report (wbPresent filenameGiven makeBackup : Bool)
    (backupRes tmpRes replaceRes fallbackRes : SaveRes) : SaveOut :=
  if wbPresent then
    let wroteB := (!filenameGiven && makeBackup) && (backupRes == .ok)
    match tmpRes, replaceRes with
    | .ok, .ok => ⟨true, true, false, wroteB⟩
    | _, _ =>
      match fallbackRes with
      | .ok => ⟨true, false, true, wroteB⟩
      | _ => ⟨false, false, false, wroteB⟩
  else ⟨false, false, false, false⟩

/-- Model of the legacy ExcelHandler.save_report of src/excel_handler.py
(lines 72 to 84): one direct workbook.save to the target; any error
returns failure with no temporary file, no atomic replace and no fallback
copy. -/
def save_report_legacy (saveRes : SaveRes) : SaveOut :=
  match saveRes with
  | .ok => ⟨true, true, false, false⟩
  | _ => ⟨false, false, false, false⟩

/-- Mutable state of an ExcelHandler: the loaded workbook (modelled by
value as its sheet name list), the selected sheet and the chosen day. -/
structure XlState where
  workbook : Option (List String)
  sheet : Option String
  currentDay : Option String
deriving DecidableEq

/-- Model of ExcelHandler.load_template (handlers/excel_handler.py lines
22 to 54, and the same selection logic in src/excel_handler.py lines 12
to 41) with the day selector already resolved to a string: a missing
template file mutates nothing and returns failure; otherwise the workbook
is loaded from the file, the day recorded, and the first sheet whose name
equals the day string selected; when no sheet matches, the previously
selected sheet is left untouched and failure is returned. -/
def load_template (file : Option (List String)) (day : String) (st : XlState) : Bool × XlState :=
  match file with
  | none => (false, st)
  | some sheets =>
    match sheets.find? (fun s => s == day) with
    | some s => (true, { workbook := some sheets, sheet := some s, currentDay := some day })
    | none => (false, { st with workbook := some sheets, currentDay := some day })

/-- The five-field record of HandwrittenProcessor after extraction. -/
structure HwRec where
  morning : Option ℚ
  evening : Option ℚ
  night : Option ℚ
  total_cash : Option ℚ
  additional_sum : Option ℚ
deriving DecidableEq

/-- The per-field fill of HandwrittenProcessor.run (lines 259 to 261):
an absent primary value is replaced by the fallback value. -/
def fill_field (p o : Option ℚ) : Option ℚ :=
  match p with
  | none => o
  | some v => some v

/-- Python int() truncation toward zero on a rational: the magnitude is
divided and the sign restored afterwards, so that int(-5.25) is -5 (Lean
integer division on a negative numerator would floor to -6 instead). -/
def rat_trunc (q : ℚ) : ℤ :=
  if 0 ≤ q.num then q.num / (q.den : ℤ) else -((-q.num) / (q.den : ℤ))

/-- The whole-versus-fractional preference of HandwrittenProcessor.run
(lines 263 to 279), applied after the fill: when both the (possibly
filled) primary value and the fallback value are present, the primary
value is whole, and the fallback value is farther than 1e-6 from its
truncation, the fallback value wins; otherwise the primary value stays. -/
def prefer_fractional (p o : Option ℚ) : Option ℚ :=
  match p, o with
  | some pv, some ov =>
    if pv.den = 1 ∧ (1 : ℚ)/1000000 < |ov - (rat_trunc ov : ℚ)| then some ov else some pv
  | _, _ => p

/-- The reconciliation step of HandwrittenProcessor.run (lines 254 to
279): fill every absent field from the fallback record, then apply the
whole-versus-fractional preference to total_cash and additional_sum only. -/
def hw_reconcile (p o : HwRec) : HwRec :=
  let f : HwRec := {
    morning := fill_field p.morning o.morning
    evening := fill_field p.evening o.evening
    night := fill_field p.night o.night
    total_cash := fill_field p.total_cash o.total_cash
    additional_sum := fill_field p.additional_sum o.additional_sum }
  { f with
    total_cash := prefer_fractional f.total_cash o.total_cash
    additional_sum := prefer_fractional f.additional_sum o.additional_sum }

/-- Model of HandwrittenLottoEndProcessor extract_from_text
(processors/handwritten_lotto_end_processor.py, lines 79 to 110),
parameterized by the emptiness of the input text and by the outcomes of
the two regex scans: the numbers found under the header (capped at
max_needed by the scanning loop) and the conversion results of the
whole-text scan used when the header yields too few. Empty (falsy) text
hits the early return of lines 80 and 81 and yields an empty value list;
otherwise the value list is truncated to max_needed and padded at the
tail with absent entries. -/
def extract_from_text (textEmpty : Bool) (headerFound : Bool) (hdrNums : List ℚ)
    (tailNums : List (Option ℚ)) (maxNeeded : Nat) : List (Option ℚ) :=
  if textEmpty then []
  else
    let values0 : List ℚ := if headerFound then hdrNums.take maxNeeded else []
    let values1 : List ℚ :=
      if values0.length < maxNeeded then
        values0 ++ ((tailNums.filterMap id).take maxNeeded).take (maxNeeded - values0.length)
      else values0
    let values2 := values1.take maxNeeded
    values2.map some ++ List.replicate (maxNeeded - values2.length) none

/-- Model of the value list of HandwrittenLottoEndProcessor
extract_with_ocr (lines 136 to 142): a pytesseract failure yields the
error record of line 142 whose value list is empty; otherwise the
recognized text goes through extract_from_text. -/
def ocr_values (ocrFailed : Bool) (textEmpty headerFound : Bool) (hdrNums : List ℚ)
    (tailNums : List (Option ℚ)) (maxNeeded : Nat) : List (Option ℚ) :=
  if ocrFailed then []
  else extract_from_text textEmpty headerFound hdrNums tailNums maxNeeded

/-- Model of the JSON-array branch of HandwrittenLottoEndProcessor
extract_with_gemini (lines 126 to 131): the normalized array is truncated
to max_needed and padded at the tail with absent entries. -/
def gemini_json_values (arr : List (Option ℚ)) (maxNeeded : Nat) : List (Option ℚ) :=
  let norm := arr.take maxNeeded
  norm ++ List.replicate (maxNeeded - norm.length) none

/-- The value actually stored by the write loop (lines 208 to 214): a
value within 1e-9 of its truncation is stored as the integer, otherwise
as the float; either way it is the extracted number up to that rounding. -/
def written_val (v : ℚ) : ℚ :=
  if |v - (rat_trunc v : ℚ)| < (1 : ℚ)/1000000000 then (rat_trunc v : ℚ) else v

/-- The write loop of HandwrittenLottoEndProcessor.run (lines 203 to 229):
walk the column list with the value list; absent entries and positions
past the end of the value list are skipped, present entries are written to
the cell named by the column letter and the row. -/
def write_row (row : String) : List String → List (Option ℚ) → List (String × ℚ)
  | [], _ => []
  | _ :: cs, [] => write_row row cs []
  | _ :: cs, none :: vs => write_row row cs vs
  | c :: cs, some v :: vs => (c ++ row, written_val v) :: write_row row cs vs

/-- The column span of the primary image row (line 203). -/
def col_letters_26 : List String :=
  ["I","J","K","L","M","N","O","P","Q","R","S","T","U","V","W","X","Y","Z","AA","AB"]

/-- The column span of the optional second image row (line 218). -/
def col_letters_33 : List String :=
  ["I","J","K","L","M","N","O","P","Q","R","S","T","U","V","W","X"]

/-! ## Theorems -/

/-- C1 counterexample: the batch normalizer has no parenthesis rule, so on
the token "(123.45)" it yields absent, not the negative value the claim
requires of every normalizer used by the processors. -/
theorem c1_batch_paren_counterexample :
    batch_to_float "(123.45)" ≠ some (-(2469/20) : ℚ) ∧ batch_to_float "(123.45)" = none := by
  constructor
  · intro h
    have : batch_to_float "(123.45)" = none := by with_unfolding_all rfl
    rw [this] at h
    exact Option.noConfusion h
  · with_unfolding_all rfl

/-- C1 (amended): HandwrittenProcessor to_float maps the four tokens to
1234.56, 1234.56, -123.45 and 122.00 as claimed; BatchProcessor to_float
agrees on the dollar-and-comma token, the plain token and the
trailing-minus token, but maps the parenthesized token to absent. -/
theorem c1_normalizer_values :
    hw_to_float "$1,234.56" = some (30864/25 : ℚ)
    ∧ hw_to_float "1234.56" = some (30864/25 : ℚ)
    ∧ hw_to_float "(123.45)" = some (-(2469/20) : ℚ)
    ∧ hw_to_float "122.00-" = some (122 : ℚ)
    ∧ batch_to_float "$1,234.56" = some (30864/25 : ℚ)
    ∧ batch_to_float "1234.56" = some (30864/25 : ℚ)
    ∧ batch_to_float "122.00-" = some (122 : ℚ)
    ∧ batch_to_float "(123.45)" = none := by
  refine ⟨?_, ?_, ?_, ?_, ?_, ?_, ?_, ?_⟩ <;> with_unfolding_all rfl

/-- C9: both numeric normalizers are total on strings: every input yields
either absent or a value, never an exception (exceptions of the Python
float call are modelled by the absent result of pyFloat and are caught by
the normalizers). -/
theorem c9_normalizer_total (s : String) :
    (hw_to_float s = none ∨ ∃ q, hw_to_float s = some q)
    ∧ (batch_to_float s = none ∨ ∃ q, batch_to_float s = some q) := by
  constructor
  · cases h : hw_to_float s with
    | none => exact Or.inl rfl
    | some q => exact Or.inr ⟨q, rfl⟩
  · cases h : batch_to_float s with
    | none => exact Or.inl rfl
    | some q => exact Or.inr ⟨q, rfl⟩

/-- C7: sheet selection is idempotent: loading the template twice in
succession with the same resolved day selector returns the same result and
leaves the handler in the same state as loading it once, in every branch
(file missing, sheet found, sheet not found). -/
theorem c7_select_sheet_idempotent (file : Option (List String)) (day : String) (st : XlState) :
    load_template file day (load_template file day st).2 = load_template file day st := by
  cases file with
  | none => rfl
  | some sheets =>
    cases h : sheets.find? (fun s => s == day) with
    | none => simp [load_template, h]
    | some s => simp [load_template, h]

/-- C4 counterexample: in LottoProcessor.run a vision-service error is a
terminal failure: the run returns a failed result at once and no
text-recognition fallback exists or is attempted, contradicting the claim
that every strategy proceeds to the fallback on a vision error. -/
theorem c4_lotto_aborts_counterexample :
    lotto_vision_stage true (Except.error "quota exceeded")
      = StageOut.abortedVisionError "quota exceeded" := rfl

/-- C4 (amended): Day1ReportProcessor proceeds to the text-recognition
fallback on a vision error instead of aborting, while LottoProcessor
returns a failed result immediately on a vision error, with no fallback
step at all; on vision success LottoProcessor proceeds normally. -/
theorem c4_vision_error_flow {α : Type} (e t : String) (parse : String → GemOut α) (ocr : α) :
    day1_select (day1_extract_gemini (Except.error e) parse) ocr = (ocr, true)
    ∧ lotto_vision_stage true (Except.error e) = StageOut.abortedVisionError e
    ∧ lotto_vision_stage true (Except.ok t) = StageOut.proceed t :=
  ⟨rfl, rfl, rfl⟩

/-- C2 counterexample: in GeminiVisionHandler.extract_lotto_data a
directly supplied total_cashes of 0 is treated as absent and overwritten
by the derived sum of the two cash parts. -/
theorem c2_gemini_zero_counterexample :
    (gemini_total_norm ⟨none, some (JVal.num 2), some (JVal.num 3), some (JVal.num 0)⟩).total_cashes
      = some (JVal.num 5)
    ∧ (gemini_total_norm ⟨none, some (JVal.num 2), some (JVal.num 3), some (JVal.num 0)⟩).total_cashes
      ≠ some (JVal.num 0) := by
  have heq : (gemini_total_norm ⟨none, some (JVal.num 2), some (JVal.num 3),
      some (JVal.num 0)⟩).total_cashes = some (JVal.num 5) := by
    with_unfolding_all rfl
  refine ⟨heq, ?_⟩
  rw [heq]
  intro h
  injection h with h1
  injection h1 with h2
  norm_num at h2

/-- C2 (amended): in LottoProcessor.run the claim holds as stated: a
directly supplied total_cashes, including 0, is written unchanged, and the
exact sum is derived only when total_cashes is absent and both parts are
present. In GeminiVisionHandler.extract_lotto_data a supplied total of 0
(or the empty string) is treated as absent and replaced by the derived
sum, while a nonzero supplied total is preserved; in
CompleteLottoProcessor.extract_lotto_data a supplied total of 0 is
likewise overwritten when both parts are truthy. -/
theorem c2_total_cashes_policy (n a b : Option JVal) (t : JVal) (x y : ℚ)
    (hx : x ≠ 0) (hy : y ≠ 0) :
    lotto_z9_write ⟨n, a, b, some t⟩ = some t
    ∧ lotto_z9_write ⟨n, some (.num x), some (.num y), none⟩ = some (.num (x + y))
    ∧ (gemini_total_norm ⟨n, some (.num x), some (.num y), some (.num 0)⟩).total_cashes
        = some (.num (x + y))
    ∧ (gemini_total_norm ⟨n, some (.num x), some (.num y), some (.num 7)⟩).total_cashes
        = some (.num 7)
    ∧ complete_total_norm ⟨n, some (.num x), some (.num y), some (.num 0)⟩
        = some ⟨n, some (.num x), some (.num y), some (.num (x + y))⟩ := by
  refine ⟨rfl, rfl, by with_unfolding_all rfl, by with_unfolding_all rfl, ?_⟩
  have h1 : truthyOJ (some (JVal.num x)) = true := by
    simp [truthyOJ, truthyJ, hx]
  have h2 : truthyOJ (some (JVal.num y)) = true := by
    simp [truthyOJ, truthyJ, hy]
  have h3 : truthyOJ (some (JVal.num 0)) = false := by
    simp [truthyOJ, truthyJ]
  simp [complete_total_norm, h1, h2, h3]

/-- C2 witness: the policy theorem at the concrete record with parts 2 and
3 and supplied totals 0 and 7. -/
theorem c2_total_cashes_policy_witness :
    ((2 : ℚ) ≠ 0) ∧ ((3 : ℚ) ≠ 0)
    ∧ (lotto_z9_write ⟨none, none, none, some (JVal.num 0)⟩ = some (JVal.num 0)
      ∧ lotto_z9_write ⟨none, some (.num 2), some (.num 3), none⟩ = some (.num (2 + 3))
      ∧ (gemini_total_norm ⟨none, some (.num 2), some (.num 3), some (.num 0)⟩).total_cashes
          = some (.num (2 + 3))
      ∧ (gemini_total_norm ⟨none, some (.num 2), some (.num 3), some (.num 7)⟩).total_cashes
          = some (.num 7)
      ∧ complete_total_norm ⟨none, some (.num 2), some (.num 3), some (.num 0)⟩
          = some ⟨none, some (.num 2), some (.num 3), some (.num (2 + 3))⟩) :=
  ⟨by norm_num, by norm_num,
    c2_total_cashes_policy none none none (JVal.num 0) 2 3 (by norm_num) (by norm_num)⟩

/-- C3 counterexample: CompleteLottoProcessor skips the write of a present
net sales value of 0 (the cell target receives nothing), and BatchProcessor
stores into Z10 the previous cell value plus the extracted value, 15 rather
than the extracted 5. -/
theorem c3_zero_skip_counterexample :
    complete_write_T30 ⟨some (JVal.num 0), none, none, none⟩ = none
    ∧ batch_z10_new (some (JVal.num 10)) 5 = 15
    ∧ ((15 : ℚ) ≠ 5) := by
  refine ⟨by with_unfolding_all rfl, by with_unfolding_all rfl, by norm_num⟩

/-- C3 (amended): in CompleteLottoProcessor a declared field is written to
its fixed cell exactly when its extracted value is truthy: a present value
of 0 (or an empty string) is skipped, any other present value is written
unchanged; in BatchProcessor the Z10 cell receives the previous numeric
cell value plus the extracted value, which equals the extracted value only
when the previous value contributes 0. -/
theorem c3_write_presence (v w : JVal) (a b nv tv : Option JVal) (cur : Option JVal) (ebt : ℚ) :
    complete_write_T30 ⟨some v, a, b, tv⟩ = (if truthyJ v then some v else none)
    ∧ complete_write_T30 ⟨none, a, b, tv⟩ = none
    ∧ complete_write_Z9 ⟨nv, a, b, some w⟩ = (if truthyJ w then some w else none)
    ∧ complete_write_Z9 ⟨nv, a, b, none⟩ = none
    ∧ batch_z10_new cur ebt = to_num cur + ebt :=
  ⟨rfl, rfl, rfl, rfl, rfl⟩

/-- When every remaining call outcome is a rate-limit error, the retry
loop uses every remaining attempt, sleeps the exponential backoff schedule
between attempts, and ends in an error result. -/
theorem rate_loop_exhausts : ∀ (outs : List CallRes) (attempt : Nat), outs ≠ [] →
    outs.all is_rate_case = true →
    (generate_attempt_loop attempt outs).attempts = outs.length
    ∧ (generate_attempt_loop attempt outs).sleeps = exp_sleeps attempt (outs.length - 1)
    ∧ is_error_res (generate_attempt_loop attempt outs).res = true := by
  intro outs
  induction outs with
  | nil => intro a h _; exact absurd rfl h
  | cons r rest ih =>
    intro a _ hall
    rw [List.all_cons, Bool.and_eq_true] at hall
    obtain ⟨hr, hrest⟩ := hall
    cases r with
    | ok t => simp [is_rate_case] at hr
    | err m =>
      have hm : isRateLimitError m = true := hr
      cases rest with
      | nil => simp [generate_attempt_loop, hm, exp_sleeps, is_error_res]
      | cons r2 rest2 =>
        obtain ⟨h1, h2, h3⟩ := ih (a + 1) (by simp) hrest
        refine ⟨?_, ?_, ?_⟩
        · simp [generate_attempt_loop, hm, h1]
        · simp [generate_attempt_loop, hm, h2, exp_sleeps, List.length_cons]
        · simpa [generate_attempt_loop, hm] using h3

/-- C5: the vision wrapper retry policy: if every attempt hits a
rate-limit error the loop makes exactly as many calls as there are
attempts allowed (the outcome list has length max_retries), sleeps the
exponential schedule 2 ^ attempt * 2 between them, and returns an error
record; an error not classified as rate limit is returned at once, after
a single call, with no sleep; and the call always yields a text-or-error
record. -/
theorem c5_retry_policy (outs : List CallRes) (m : String) (rest : List CallRes)
    (a : Nat) (imgOk : Bool)
    (h1 : outs ≠ []) (h2 : outs.all is_rate_case = true) (h3 : isRateLimitError m = false) :
    ((generate_attempt_loop 1 outs).attempts = outs.length
      ∧ (generate_attempt_loop 1 outs).sleeps = exp_sleeps 1 (outs.length - 1)
      ∧ is_error_res (generate_attempt_loop 1 outs).res = true)
    ∧ generate_attempt_loop a (.err m :: rest) = ⟨.error m, 1, []⟩
    ∧ (is_error_res (generate_from_image imgOk outs).res = true
        ∨ ∃ t, (generate_from_image imgOk outs).res = .ok t) := by
  refine ⟨rate_loop_exhausts outs 1 h1 h2, ?_, ?_⟩
  · simp [generate_attempt_loop, h3]
  · cases hres : (generate_from_image imgOk outs).res with
    | error e => exact Or.inl (by simp [is_error_res, hres])
    | ok t => exact Or.inr ⟨t, rfl⟩

/-- C5 witness: the policy theorem at three rate-limit outcomes and the
non-rate-limit message. -/
theorem c5_retry_policy_witness :
    ([CallRes.err "quota hit", CallRes.err "rate limit", CallRes.err "429 resource"] ≠ [])
    ∧ ([CallRes.err "quota hit", CallRes.err "rate limit",
        CallRes.err "429 resource"].all is_rate_case = true)
    ∧ (isRateLimitError "bad image" = false)
    ∧ (((generate_attempt_loop 1 [CallRes.err "quota hit", CallRes.err "rate limit",
            CallRes.err "429 resource"]).attempts
          = [CallRes.err "quota hit", CallRes.err "rate limit", CallRes.err "429 resource"].length
        ∧ (generate_attempt_loop 1 [CallRes.err "quota hit", CallRes.err "rate limit",
            CallRes.err "429 resource"]).sleeps
          = exp_sleeps 1 ([CallRes.err "quota hit", CallRes.err "rate limit",
              CallRes.err "429 resource"].length - 1)
        ∧ is_error_res (generate_attempt_loop 1 [CallRes.err "quota hit", CallRes.err "rate limit",
            CallRes.err "429 resource"]).res = true)
      ∧ generate_attempt_loop 2 (.err "bad image" :: []) = ⟨.error "bad image", 1, []⟩
      ∧ (is_error_res (generate_from_image true [CallRes.err "quota hit", CallRes.err "rate limit",
            CallRes.err "429 resource"]).res = true
          ∨ ∃ t, (generate_from_image true [CallRes.err "quota hit", CallRes.err "rate limit",
              CallRes.err "429 resource"]).res = .ok t)) :=
  ⟨by simp, by with_unfolding_all rfl, by with_unfolding_all rfl,
    c5_retry_policy [CallRes.err "quota hit", CallRes.err "rate limit",
      CallRes.err "429 resource"] "bad image" [] 2 true (by simp)
      (by with_unfolding_all rfl) (by with_unfolding_all rfl)⟩

/-- C6 counterexample: the legacy save_report of src/excel_handler.py, on
a locked target (permission error), returns failure and writes no fallback
file at all, contradicting the claimed locked-target fallback behavior. -/
theorem c6_legacy_no_fallback_counterexample :
    save_report_legacy SaveRes.permErr = ⟨false, false, false, false⟩ := rfl

/-- C6 (amended): the handlers ExcelHandler.save_report follows the
claimed protocol: with a workbook present it succeeds exactly when either
the temporary-file write and the atomic replace both succeed or the
timestamped fallback write succeeds; on a locked target after a good
temporary write it writes the timestamped sibling and still returns
success, failing only when that fallback write also fails; the legacy
src/excel_handler.py save_report instead writes the target directly and
returns failure on the first error with no fallback. -/
theorem c6_save_protocol (fg mb : Bool) (br tr rr fr : SaveRes) :
    (save_report true fg mb br tr rr fr).success = ((tr == .ok && rr == .ok) || (fr == .ok))
    ∧ save_report true fg mb br .ok .permErr .ok
        = ⟨true, false, true, (!fg && mb) && (br == .ok)⟩
    ∧ (save_report true fg mb br .ok .permErr fr).wroteFallback = (fr == .ok)
    ∧ (save_report true fg mb br .ok .permErr fr).wroteTarget = false
    ∧ save_report_legacy .permErr = ⟨false, false, false, false⟩ := by
  cases tr <;> cases rr <;> cases fr <;>
    simp [save_report, save_report_legacy] <;> decide

/-- C8 counterexample: for the morning field with primary value 5 (whole)
and fallback value 5.25 (fractional), reconciliation keeps the primary 5;
the claimed preference for the fractional fallback does not apply to this
field. -/
theorem c8_morning_counterexample :
    (hw_reconcile ⟨some 5, none, none, none, none⟩
        ⟨some (21/4 : ℚ), none, none, none, none⟩).morning = some 5
    ∧ ((5 : ℚ) ≠ 21/4) := by
  refine ⟨by with_unfolding_all rfl, by norm_num⟩

/-- C8 (amended): the whole-versus-fractional preference applies only to
the total_cash and additional_sum fields: when both paths produce a value
there, the fallback value wins exactly when the primary value is whole and
the fallback value is farther than 1e-6 from its truncation, and the
primary value stays otherwise; for the morning (and likewise evening and
night) fields the primary value always wins when present. -/
theorem c8_reconcile_policy (m1 e1 n1 a1 tcp m2 e2 n2 a2 tco : Option ℚ) (pv ov mv mo : ℚ) :
    (hw_reconcile ⟨m1, e1, n1, some pv, a1⟩ ⟨m2, e2, n2, some ov, a2⟩).total_cash
      = (if pv.den = 1 ∧ (1 : ℚ)/1000000 < |ov - (rat_trunc ov : ℚ)| then some ov else some pv)
    ∧ (hw_reconcile ⟨m1, e1, n1, tcp, some pv⟩ ⟨m2, e2, n2, tco, some ov⟩).additional_sum
      = (if pv.den = 1 ∧ (1 : ℚ)/1000000 < |ov - (rat_trunc ov : ℚ)| then some ov else some pv)
    ∧ (hw_reconcile ⟨some mv, e1, n1, tcp, a1⟩ ⟨some mo, e2, n2, tco, a2⟩).morning = some mv :=
  ⟨rfl, rfl, rfl⟩

/-- On nonempty text the extraction of the lotto-end strategy yields a
list of exactly max_needed entries. -/
theorem extract_from_text_length (hf : Bool) (hn : List ℚ) (tn : List (Option ℚ)) (k : Nat) :
    (extract_from_text false hf hn tn k).length = k := by
  simp only [extract_from_text, Bool.false_eq_true, if_false, List.length_append,
    List.length_map, List.length_replicate, List.length_take]
  omega

/-- The JSON branch of the lotto-end strategy also yields exactly
max_needed entries. -/
theorem gemini_json_values_length (arr : List (Option ℚ)) (k : Nat) :
    (gemini_json_values arr k).length = k := by
  simp only [gemini_json_values, List.length_append, List.length_take, List.length_replicate]
  omega

/-- The write loop writes one cell per present entry among the positions
covered by the column span, and nothing else. -/
theorem write_row_len (row : String) : ∀ (cols : List String) (vals : List (Option ℚ)),
    (write_row row cols vals).length = (vals.take cols.length).countP (fun v => v.isSome)
  | [], vals => by simp [write_row]
  | _ :: cs, [] => by simpa [write_row] using write_row_len row cs []
  | _ :: cs, none :: vs => by
    simp [write_row, write_row_len row cs vs, List.take_succ_cons, List.countP_cons]
  | c :: cs, some v :: vs => by
    simp [write_row, write_row_len row cs vs, List.take_succ_cons, List.countP_cons]

/-- Every cell the write loop writes is named by one of the configured
column letters with the configured row. -/
theorem write_row_cells (row : String) : ∀ (cols : List String) (vals : List (Option ℚ)),
    ∀ p ∈ write_row row cols vals, ∃ c ∈ cols, p.1 = c ++ row
  | [], vals => by simp [write_row]
  | _ :: cs, [] => by
    intro p hp
    obtain ⟨c, hc, he⟩ := write_row_cells row cs [] p (by simpa [write_row] using hp)
    exact ⟨c, List.mem_cons_of_mem _ hc, he⟩
  | _ :: cs, none :: vs => by
    intro p hp
    obtain ⟨c, hc, he⟩ := write_row_cells row cs vs p (by simpa [write_row] using hp)
    exact ⟨c, List.mem_cons_of_mem _ hc, he⟩
  | c :: cs, some v :: vs => by
    intro p hp
    rcases (by simpa [write_row] using hp :
        p = (c ++ row, written_val v) ∨ p ∈ write_row row cs vs) with h | h
    · exact ⟨c, List.mem_cons_self _ _, by rw [h]⟩
    · obtain ⟨c2, hc2, he⟩ := write_row_cells row cs vs p h
      exact ⟨c2, List.mem_cons_of_mem _ hc2, he⟩

/-- C10 counterexample: empty recognized text hits the early return of
extract_from_text (lines 80 and 81) and yields a value list of length 0,
not the fixed 20, and the pytesseract failure path of extract_with_ocr
(line 142) likewise yields an empty value list, so not every extraction
result has the fixed length. -/
theorem c10_empty_text_counterexample :
    (extract_from_text true false [] [] 20).length = 0
    ∧ ocr_values true false false [] [] 20 = []
    ∧ (0 : Nat) ≠ 20 := by
  refine ⟨rfl, rfl, by norm_num⟩

/-- C10 (amended): on nonempty text, and in the JSON branch, every
extraction result of the handwritten-lotto-ends strategy has the fixed
length for its image (20 for the primary, 16 for the second), with tail
padding and truncation; the empty-text early return and the
text-recognition failure path instead yield an empty value list (which
the write phase treats as all absent); and the write phase writes exactly
the present entries, the primary row only to cells I26 through AB26 and
the second row only to cells I33 through X33. -/
theorem c10_fixed_width_rows (hf te : Bool) (hn : List ℚ)
    (tn arr vals1 vals2 : List (Option ℚ)) (n k : Nat) :
    (extract_from_text false hf hn tn 20).length = 20
    ∧ (extract_from_text false hf hn tn 16).length = 16
    ∧ (gemini_json_values arr n).length = n
    ∧ extract_from_text true hf hn tn k = []
    ∧ ocr_values true te hf hn tn k = []
    ∧ (write_row "26" col_letters_26 vals1).length
        = (vals1.take col_letters_26.length).countP (fun v => v.isSome)
    ∧ ((write_row "26" col_letters_26 vals1).all
        (fun p => col_letters_26.any (fun c => (c ++ "26") == p.1))) = true
    ∧ (write_row "33" col_letters_33 vals2).length
        = (vals2.take col_letters_33.length).countP (fun v => v.isSome)
    ∧ ((write_row "33" col_letters_33 vals2).all
        (fun p => col_letters_33.any (fun c => (c ++ "33") == p.1))) = true := by
  refine ⟨extract_from_text_length hf hn tn 20, extract_from_text_length hf hn tn 16,
    gemini_json_values_length arr n, rfl, rfl,
    write_row_len "26" col_letters_26 vals1, ?_,
    write_row_len "33" col_letters_33 vals2, ?_⟩
  · rw [List.all_eq_true]
    intro p hp
    rw [List.any_eq_true]
    obtain ⟨c, hc, he⟩ := write_row_cells "26" col_letters_26 vals1 p hp
    exact ⟨c, hc, by rw [he]; simp⟩
  · rw [List.all_eq_true]
    intro p hp
    rw [List.any_eq_true]
    obtain ⟨c, hc, he⟩ := write_row_cells "33" col_letters_33 vals2 p hp
    exact ⟨c, hc, by rw [he]; simp⟩

end DailyReport

